import Mathlib

/-!
Verification of the lyric-video timing deriver and render session controller
of the chantastik client (files under src: the player component, the REST
data-access layer api.ts, and the upload hook).

Numbers: JS numbers carrying times and progress fractions are modelled as
rationals; frame counts produced by Math.round / Math.ceil are integers.
JS Math.round x equals the floor of x + 1/2, which is Mathlib round on the
rationals; JS Math.ceil is Int.ceil.
-/

namespace Chantastik

/-- A lyric line as supplied by the editor: text, a start time in seconds,
and an optional explicit end time in seconds (spec: the LyricLine record). -/
structure LyricLine where
  text : String
  startTimeSeconds : ℚ
  endTimeSeconds : Option ℚ
deriving DecidableEq, Repr

/-- A lyric line annotated with computed start and end frame indices
(spec: the DerivedLyricLine record). -/
structure DerivedLyricLine where
  text : String
  startFrame : ℤ
  endFrame : ℤ
deriving DecidableEq, Repr

/-- Modelled from the spec: the function parseLines, imported by the player
component from the remotion Root module, which is not among the given source
files. Spec contract, at the fixed frame rate 30: for each line,
startFrame = round(startTimeSeconds * frameRate); endFrame = startFrame of
the next line, or, for the last line, startFrame + a default duration if no
explicit end is supplied (the explicit end, when supplied, is converted the
same way as a start time). The default duration in frames is the parameter
defaultDur. -/
def parseLines (defaultDur : ℕ) : List LyricLine → List DerivedLyricLine
  | [] => []
  | [l] =>
      [{ text := l.text
         startFrame := round (l.startTimeSeconds * 30)
         endFrame :=
           match l.endTimeSeconds with
           | some e => round (e * 30)
           | none => round (l.startTimeSeconds * 30) + defaultDur }]
  | l :: next :: rest =>
      { text := l.text
        startFrame := round (l.startTimeSeconds * 30)
        endFrame := round (next.startTimeSeconds * 30) }
      :: parseLines defaultDur (next :: rest)

/-- The totalFrames computation of the player component (lines 150 to 164 of
the component source). The audio duration read from the audio element is
modelled as an Option: none when no duration is known (the JS expression
audioRef.current?.duration || 0 then yields 0). -/
def totalFrames (audioDuration : Option ℚ) (lyricsData : List DerivedLyricLine) : ℤ :=
  if lyricsData.isEmpty then 0
  else
    let d : ℚ := audioDuration.getD 0
    let audioFrames : ℤ := ⌈d * 30⌉
    let lastLyricFrame : ℤ := (lyricsData.getLast?.map DerivedLyricLine.endFrame).getD 0
    max audioFrames lastLyricFrame + 30

/-- The derived frame range of the last input line, as parseLines computes it. -/
def lastDerived (defaultDur : ℕ) (l : LyricLine) : DerivedLyricLine :=
  { text := l.text
    startFrame := round (l.startTimeSeconds * 30)
    endFrame :=
      match l.endTimeSeconds with
      | some e => round (e * 30)
      | none => round (l.startTimeSeconds * 30) + defaultDur }

theorem parseLines_nil (defaultDur : ℕ) : parseLines defaultDur [] = [] := rfl

theorem parseLines_singleton (defaultDur : ℕ) (l : LyricLine) :
    parseLines defaultDur [l] = [lastDerived defaultDur l] := rfl

theorem parseLines_cons_cons (defaultDur : ℕ) (l next : LyricLine) (rest : List LyricLine) :
    parseLines defaultDur (l :: next :: rest) =
      { text := l.text
        startFrame := round (l.startTimeSeconds * 30)
        endFrame := round (next.startTimeSeconds * 30) }
      :: parseLines defaultDur (next :: rest) := rfl

theorem parseLines_length (defaultDur : ℕ) :
    ∀ lines : List LyricLine, (parseLines defaultDur lines).length = lines.length
  | [] => rfl
  | [_] => rfl
  | _ :: next :: rest => by
      rw [parseLines_cons_cons, List.length_cons, List.length_cons,
        parseLines_length defaultDur (next :: rest), List.length_cons]

theorem parseLines_ne_nil (defaultDur : ℕ) (lines : List LyricLine) (h : lines ≠ []) :
    parseLines defaultDur lines ≠ [] := by
  intro hc
  apply h
  have := parseLines_length defaultDur lines
  rw [hc] at this
  exact List.length_eq_zero.mp this.symm

theorem parseLines_getLast? (defaultDur : ℕ) :
    ∀ lines : List LyricLine,
      (parseLines defaultDur lines).getLast? = lines.getLast?.map (lastDerived defaultDur)
  | [] => rfl
  | [_] => rfl
  | l :: next :: rest => by
      cases rest with
      | nil => simp [parseLines, lastDerived]
      | cons r rs =>
          rw [List.getLast?_cons_cons, parseLines_cons_cons, parseLines_cons_cons,
            List.getLast?_cons_cons, ← parseLines_cons_cons,
            parseLines_getLast? defaultDur (next :: r :: rs)]

theorem parseLines_map_startFrame (defaultDur : ℕ) :
    ∀ lines : List LyricLine,
      (parseLines defaultDur lines).map DerivedLyricLine.startFrame
        = lines.map (fun l => round (l.startTimeSeconds * 30))
  | [] => rfl
  | [_] => rfl
  | _ :: next :: rest => by
      rw [parseLines_cons_cons, List.map_cons, List.map_cons,
        parseLines_map_startFrame defaultDur (next :: rest)]

theorem parseLines_head? (defaultDur : ℕ) (next : LyricLine) (rest : List LyricLine) :
    ∃ d, (parseLines defaultDur (next :: rest)).head? = some d ∧
      d.startFrame = round (next.startTimeSeconds * 30) := by
  cases rest with
  | nil => exact ⟨_, rfl, rfl⟩
  | cons r rs => exact ⟨_, rfl, rfl⟩

theorem parseLines_chain_endFrame (defaultDur : ℕ) :
    ∀ lines : List LyricLine,
      List.Chain' (fun a b => a.endFrame = b.startFrame) (parseLines defaultDur lines)
  | [] => List.chain'_nil
  | [l] => by rw [parseLines_singleton]; exact List.chain'_singleton _
  | l :: next :: rest => by
      rw [parseLines_cons_cons]
      refine List.chain'_cons'.mpr ⟨?_, parseLines_chain_endFrame defaultDur (next :: rest)⟩
      intro y hy
      obtain ⟨d, hd, hds⟩ := parseLines_head? defaultDur next rest
      rw [hd] at hy
      have hyd : d = y := by exact_mod_cast Option.mem_some_iff.mp hy
      rw [← hyd, hds]

/-- The totalFrames computation on a sequence with an explicit last element. -/
theorem totalFrames_concat (aud : Option ℚ) (ys : List DerivedLyricLine)
    (l : DerivedLyricLine) :
    totalFrames aud (ys ++ [l]) = max ⌈(aud.getD 0) * 30⌉ l.endFrame + 30 := by
  simp [totalFrames]

/-- The totalFrames computation in terms of the last element of the sequence. -/
theorem totalFrames_of_getLast? (aud : Option ℚ) (seq : List DerivedLyricLine)
    (l : DerivedLyricLine) (h : seq.getLast? = some l) :
    totalFrames aud seq = max ⌈(aud.getD 0) * 30⌉ l.endFrame + 30 := by
  cases seq with
  | nil => simp at h
  | cons a as => simp [totalFrames, h]

/-- Rounding on the rationals is monotone. -/
theorem round_rat_mono (x y : ℚ) (h : x ≤ y) : round x ≤ round y := by
  rw [round_eq, round_eq]
  exact Int.floor_mono (by linarith)

/-- C1: for every non-empty derived lyric sequence, totalFrames equals
max of the ceiling of audioDurationSeconds times 30 and the endFrame of the
last derived line, plus the fixed 30-frame buffer; an unknown audio duration
(none) enters the formula as 0. -/
theorem C1_totalFrames_formula (aud : Option ℚ) (ys : List DerivedLyricLine)
    (l : DerivedLyricLine) :
    totalFrames aud (ys ++ [l]) = max ⌈(aud.getD 0) * 30⌉ l.endFrame + 30
      ∧ totalFrames none (ys ++ [l]) = max ⌈(0 : ℚ) * 30⌉ l.endFrame + 30 :=
  ⟨totalFrames_concat aud ys l, totalFrames_concat none ys l⟩

/-- C8: on the empty lyric sequence the deriver yields an empty derived
sequence, and totalFrames is 0 regardless of the audio duration. -/
theorem C8_empty_sequence (aud : Option ℚ) (defaultDur : ℕ) :
    parseLines defaultDur [] = [] ∧ totalFrames aud (parseLines defaultDur []) = 0 :=
  ⟨rfl, rfl⟩

/-- The condition under which the derived last line has a strictly larger end
frame than start frame: a positive default duration when no explicit end is
supplied, or an explicit end whose rounded frame exceeds the rounded start. -/
def lastLineEndOk (defaultDur : ℕ) (l : LyricLine) : Prop :=
  match l.endTimeSeconds with
  | none => 0 < defaultDur
  | some e => round (l.startTimeSeconds * 30) < round (e * 30)

theorem parseLines_endFrame_pos (defaultDur : ℕ) :
    ∀ lines : List LyricLine,
      List.Chain' (fun a b =>
        round (a.startTimeSeconds * 30) < round (b.startTimeSeconds * 30)) lines →
      (∀ l, lines.getLast? = some l → lastLineEndOk defaultDur l) →
      ∀ d ∈ parseLines defaultDur lines, d.startFrame < d.endFrame
  | [], _, _ => by simp [parseLines]
  | [l], _, hlast => by
      intro d hd
      rw [parseLines_singleton] at hd
      rcases List.mem_singleton.mp hd with rfl
      have h := hlast l rfl
      unfold lastLineEndOk at h
      unfold lastDerived
      cases hend : l.endTimeSeconds with
      | none =>
          rw [hend] at h
          simp only [hend]
          omega
      | some e =>
          rw [hend] at h
          simp only [hend]
          exact h
  | l :: next :: rest, hchain, hlast => by
      intro d hd
      rw [parseLines_cons_cons] at hd
      rcases List.mem_cons.mp hd with rfl | h2
      · exact (List.chain'_cons.mp hchain).1
      · exact parseLines_endFrame_pos defaultDur (next :: rest)
          (List.chain'_cons.mp hchain).2
          (fun l' hl' => hlast l' (by rw [List.getLast?_cons_cons]; exact hl'))
          d h2

/-- C5 counterexample: two lines starting 0.01 seconds apart both round to
frame 0, so the first derived line has endFrame equal to startFrame; the
invariant endFrame greater than startFrame fails on this concrete input. -/
theorem C5_counterexample :
    (parseLines 60 [⟨"a", (0 : ℚ), none⟩, ⟨"b", 1/100, none⟩]).head?
        = some ⟨"a", 0, 0⟩
    ∧ ¬ ((⟨"a", 0, 0⟩ : DerivedLyricLine).startFrame
          < (⟨"a", 0, 0⟩ : DerivedLyricLine).endFrame) := by
  constructor
  · rw [parseLines_cons_cons]
    simp only [List.head?_cons, Option.some_inj, DerivedLyricLine.mk.injEq]
    norm_num
  · simp

/-- C5 amended: every derived line satisfies endFrame greater than startFrame
provided the rounded start frames of consecutive lines strictly increase and
the last line either has a positive default duration (no explicit end) or an
explicit end rounding past its start; and for every non-empty derived
sequence totalFrames is at least the maximum of the last endFrame and the
ceiling of audio duration times 30, plus the 30-frame buffer. -/
theorem C5_amended_invariants (defaultDur : ℕ) (lines : List LyricLine) :
    (List.Chain' (fun a b =>
        round (a.startTimeSeconds * 30) < round (b.startTimeSeconds * 30)) lines →
      (∀ l, lines.getLast? = some l → lastLineEndOk defaultDur l) →
      ∀ d ∈ parseLines defaultDur lines, d.startFrame < d.endFrame)
    ∧ (∀ (aud : Option ℚ) (seq : List DerivedLyricLine) (d : DerivedLyricLine),
        seq.getLast? = some d →
        totalFrames aud seq ≥ max d.endFrame ⌈(aud.getD 0) * 30⌉ + 30) := by
  refine ⟨fun hchain hlast => parseLines_endFrame_pos defaultDur lines hchain hlast, ?_⟩
  intro aud seq d hd
  rw [totalFrames_of_getLast? aud seq d hd]
  rw [max_comm]

theorem C5_amended_invariants_witness :
    ((⟨"a", (0 : ℤ), 60⟩ : DerivedLyricLine).startFrame
      < (⟨"a", (0 : ℤ), 60⟩ : DerivedLyricLine).endFrame)
    ∧ totalFrames (some 5) [⟨"a", (0 : ℤ), 60⟩]
        ≥ max (⟨"a", (0 : ℤ), 60⟩ : DerivedLyricLine).endFrame
            ⌈((some (5 : ℚ)).getD 0) * 30⌉ + 30 := by
  have hpl : parseLines 60 [⟨"a", (0 : ℚ), none⟩, ⟨"b", 2, none⟩]
      = [⟨"a", 0, 60⟩, ⟨"b", 60, 120⟩] := by
    rw [parseLines_cons_cons, parseLines_singleton]
    unfold lastDerived
    norm_num
  constructor
  · refine (C5_amended_invariants 60 [⟨"a", (0 : ℚ), none⟩, ⟨"b", 2, none⟩]).1
      ?_ ?_ ⟨"a", 0, 60⟩ ?_
    · refine List.chain'_cons.mpr ⟨by norm_num, List.chain'_singleton _⟩
    · intro l hl
      rw [List.getLast?_cons_cons] at hl
      simp only [List.getLast?_singleton, Option.some_inj] at hl
      rw [← hl]
      unfold lastLineEndOk
      norm_num
    · rw [hpl]
      simp
  · exact (C5_amended_invariants 60 [⟨"a", (0 : ℚ), none⟩, ⟨"b", 2, none⟩]).2
      (some 5) [⟨"a", (0 : ℤ), 60⟩] ⟨"a", 0, 60⟩ rfl

/-- C6: each derived line has startFrame equal to the rounded product of its
start time and the frame rate 30; each non-last derived line has endFrame
equal to the startFrame of the next derived line; the last derived line with
no explicit end gets startFrame plus the default duration; and the concrete
scenario of lines starting at 0 s and 2 s derives to frames 0 to 60 and 60
to 60 plus the default, with totalFrames for a 5 second audio equal to
max of 150 and the last end frame, plus 30. -/
theorem C6_per_line_derivation (defaultDur : ℕ) (lines : List LyricLine) :
    ((parseLines defaultDur lines).map DerivedLyricLine.startFrame
        = lines.map (fun l => round (l.startTimeSeconds * 30)))
    ∧ List.Chain' (fun a b => a.endFrame = b.startFrame) (parseLines defaultDur lines)
    ∧ (parseLines defaultDur lines).getLast? = lines.getLast?.map (lastDerived defaultDur)
    ∧ (∀ (t : String) (s : ℚ), lastDerived defaultDur ⟨t, s, none⟩
        = ⟨t, round (s * 30), round (s * 30) + (defaultDur : ℤ)⟩)
    ∧ parseLines defaultDur [⟨"a", (0 : ℚ), none⟩, ⟨"b", 2, none⟩]
        = [⟨"a", 0, 60⟩, ⟨"b", 60, 60 + (defaultDur : ℤ)⟩]
    ∧ totalFrames (some 5) (parseLines defaultDur [⟨"a", (0 : ℚ), none⟩, ⟨"b", 2, none⟩])
        = max 150 (60 + (defaultDur : ℤ)) + 30 := by
  have hpl : parseLines defaultDur [⟨"a", (0 : ℚ), none⟩, ⟨"b", 2, none⟩]
      = [⟨"a", 0, 60⟩, ⟨"b", 60, 60 + (defaultDur : ℤ)⟩] := by
    rw [parseLines_cons_cons, parseLines_singleton]
    unfold lastDerived
    norm_num
  refine ⟨parseLines_map_startFrame defaultDur lines,
    parseLines_chain_endFrame defaultDur lines,
    parseLines_getLast? defaultDur lines,
    fun t s => rfl, hpl, ?_⟩
  rw [hpl, totalFrames_of_getLast? (some 5) _ ⟨"b", 60, 60 + (defaultDur : ℤ)⟩ (by rfl)]
  norm_num

/-- C7: totalFrames is monotonically non-decreasing in the audio duration
with the lyric sequence fixed, and monotonically non-decreasing in the last
line explicit end time with the audio duration and the other lines fixed. -/
theorem C7_totalFrames_monotone :
    (∀ (seq : List DerivedLyricLine) (d d' : ℚ), seq ≠ [] → d ≤ d' →
        totalFrames (some d) seq ≤ totalFrames (some d') seq)
    ∧ (∀ (defaultDur : ℕ) (aud : Option ℚ) (xs : List LyricLine)
          (t : String) (s e e' : ℚ), e ≤ e' →
        totalFrames aud (parseLines defaultDur (xs ++ [⟨t, s, some e⟩]))
          ≤ totalFrames aud (parseLines defaultDur (xs ++ [⟨t, s, some e'⟩]))) := by
  constructor
  · intro seq d d' hne hle
    obtain ⟨l, hl⟩ : ∃ l, seq.getLast? = some l := by
      cases hq : seq.getLast? with
      | none => exact absurd (List.getLast?_eq_none_iff.mp hq) hne
      | some l => exact ⟨l, rfl⟩
    rw [totalFrames_of_getLast? (some d) seq l hl,
      totalFrames_of_getLast? (some d') seq l hl]
    apply add_le_add_right
    apply max_le_max _ le_rfl
    simp only [Option.getD_some]
    exact Int.ceil_le_ceil (by linarith)
  · intro defaultDur aud xs t s e e' hle
    have hg : ∀ x : ℚ, (parseLines defaultDur (xs ++ [⟨t, s, some x⟩])).getLast?
        = some (lastDerived defaultDur ⟨t, s, some x⟩) := by
      intro x
      rw [parseLines_getLast?, List.getLast?_concat]
      rfl
    rw [totalFrames_of_getLast? aud _ _ (hg e),
      totalFrames_of_getLast? aud _ _ (hg e')]
    apply add_le_add_right
    apply max_le_max le_rfl
    exact round_rat_mono (e * 30) (e' * 30) (by linarith)

theorem C7_totalFrames_monotone_witness :
    (([⟨"a", (0 : ℤ), 60⟩] : List DerivedLyricLine) ≠ []
      ∧ (1 : ℚ) ≤ 2
      ∧ totalFrames (some 1) [⟨"a", (0 : ℤ), 60⟩]
          ≤ totalFrames (some 2) [⟨"a", (0 : ℤ), 60⟩])
    ∧ totalFrames none (parseLines 60 ([] ++ [⟨"b", (0 : ℚ), some 1⟩]))
        ≤ totalFrames none (parseLines 60 ([] ++ [⟨"b", (0 : ℚ), some 2⟩])) :=
  ⟨⟨by simp, by norm_num,
      C7_totalFrames_monotone.1 [⟨"a", (0 : ℤ), 60⟩] 1 2 (by simp) (by norm_num)⟩,
    C7_totalFrames_monotone.2 60 none [] "b" 0 1 2 (by norm_num)⟩

/-- A parsed progress event payload delivered by the server push channel:
a type tag string with optional progress fraction, message and download URL
(the shape of the renderProgress state in the player component). -/
structure EventData where
  type : String
  progress : Option ℚ
  message : Option String
  downloadUrl : Option String
deriving DecidableEq, Repr

/-- A user-visible toast: success or failure, with title and description. -/
inductive Note where
  | success (title : String) (description : String)
  | failure (title : String) (description : String)
deriving DecidableEq, Repr

def Note.isSuccess : Note → Bool
  | .success _ _ => true
  | .failure _ _ => false

/-- An asynchronous occurrence during a render session: a parsed message on
the push channel, a transport error on the channel, or the resolution of the
render submission call (modelling the renderVideo fetch of api.ts: success,
or rejection carrying an error message). -/
inductive SessionEvent where
  | pushMsg (data : EventData)
  | pushError
  | submitOk (fileName : String)
  | submitFailed (msg : String)
deriving DecidableEq, Repr

def SessionEvent.isPush : SessionEvent → Bool
  | .pushMsg _ => true
  | .pushError => true
  | _ => false

def SessionEvent.isTerminalPush : SessionEvent → Bool
  | .pushMsg d =>
      if d.type = "complete" then true else if d.type = "error" then true else false
  | .pushError => true
  | _ => false

def SessionEvent.isCompleteMsg : SessionEvent → Bool
  | .pushMsg d => if d.type = "complete" then true else false
  | _ => false

/-- The observable state of one render session: whether the EventSource is
open, how many times close() has been invoked on it, the renderProgress
React state, and the toasts fired so far. -/
structure SessionState where
  connOpen : Bool
  closeCount : ℕ
  progress : Option EventData
  notes : List Note
deriving DecidableEq, Repr

/-- JS truthiness of the JS expression m || dflt on an optional string:
null, undefined and the empty string are falsy. -/
def jsOrStr (m : Option String) (dflt : String) : String :=
  match m with
  | none => dflt
  | some s => if s.isEmpty then dflt else s

/-- JS falsiness of an optional string value: null or undefined or empty. -/
def jsFalsyStr : Option String → Bool
  | none => true
  | some s => s.isEmpty

/-- The event handlers installed by handleRenderVideo (component lines 203
to 228), as a transition on the session state. A message or transport-error
event is only delivered while the EventSource is open (after close() the
browser dispatches no further events); the submission resolution is an
independent promise and is delivered regardless. On a complete message:
success toast, close, progress reset to null. On an error message: failure
toast with the payload message (or the default), close, reset. On any other
message type: the payload becomes the current progress. On a transport
error: generic failure toast, close, reset. The submission resolution only
fires the toast of renderVideo in api.ts; it does not touch the connection
or the progress state. -/
def handleEvent (s : SessionState) (e : SessionEvent) : SessionState :=
  match e with
  | .pushMsg data =>
      if s.connOpen then
        if data.type = "complete" then
          { s with progress := none
                   connOpen := false
                   closeCount := s.closeCount + 1
                   notes := s.notes ++ [Note.success "Video rendered successfully!"
                     "Your lyric video is ready for download"] }
        else if data.type = "error" then
          { s with progress := none
                   connOpen := false
                   closeCount := s.closeCount + 1
                   notes := s.notes ++ [Note.failure "Render failed"
                     (jsOrStr data.message "Unknown error occurred")] }
        else { s with progress := some data }
      else s
  | .pushError =>
      if s.connOpen then
        { s with progress := none
                 connOpen := false
                 closeCount := s.closeCount + 1
                 notes := s.notes ++ [Note.failure "Connection error"
                   "Lost connection to render server"] }
      else s
  | .submitOk fileName =>
      { s with notes := s.notes ++ [Note.success "Render completed"
          (String.append "Video rendered successfully: " fileName)] }
  | .submitFailed msg =>
      { s with notes := s.notes ++ [Note.failure "Render failed" msg] }

/-- A render session processes its asynchronous events in arrival order. -/
def runSession (s : SessionState) (events : List SessionEvent) : SessionState :=
  events.foldl handleEvent s

/-- The single toast a terminal push event fires. -/
def terminalNote : SessionEvent → Note
  | .pushMsg d =>
      if d.type = "complete" then
        Note.success "Video rendered successfully!" "Your lyric video is ready for download"
      else Note.failure "Render failed" (jsOrStr d.message "Unknown error occurred")
  | .pushError => Note.failure "Connection error" "Lost connection to render server"
  | .submitOk f => Note.success "Render completed" (String.append "Video rendered successfully: " f)
  | .submitFailed m => Note.failure "Render failed" m

/-- The controller state with no active session and no past toasts. -/
def idleState : SessionState :=
  { connOpen := false, closeCount := 0, progress := none, notes := [] }

/-- The state right after a validated trigger: the EventSource has been
opened, close() has not been called, no event has arrived, no toast fired. -/
def activeSession : SessionState :=
  { connOpen := true, closeCount := 0, progress := none, notes := [] }

theorem runSession_append (s : SessionState) (a b : List SessionEvent) :
    runSession s (a ++ b) = runSession (runSession s a) b :=
  List.foldl_append handleEvent s a b

theorem handleEvent_closed (s : SessionState) (hs : s.connOpen = false)
    (e : SessionEvent) (he : e.isPush = true) : handleEvent s e = s := by
  cases e with
  | pushMsg d => simp [handleEvent, hs]
  | pushError => simp [handleEvent, hs]
  | submitOk f => simp [SessionEvent.isPush] at he
  | submitFailed m => simp [SessionEvent.isPush] at he

theorem runSession_closed (s : SessionState) (hs : s.connOpen = false) :
    ∀ post : List SessionEvent, (∀ e ∈ post, e.isPush = true) → runSession s post = s
  | [], _ => rfl
  | e :: es, hp => by
      have h1 : handleEvent s e = s :=
        handleEvent_closed s hs e (hp e (List.mem_cons_self e es))
      show runSession (handleEvent s e) es = s
      rw [h1]
      exact runSession_closed s hs es (fun x hx => hp x (List.mem_cons_of_mem e hx))

theorem runSession_nonterminal (p : Option EventData) :
    ∀ pre : List SessionEvent,
      (∀ e ∈ pre, e.isPush = true ∧ e.isTerminalPush = false) →
      ∃ q, runSession ⟨true, 0, p, []⟩ pre = ⟨true, 0, q, []⟩
  | [], _ => ⟨p, rfl⟩
  | e :: es, hp => by
      obtain ⟨hpush, hterm⟩ := hp e (List.mem_cons_self e es)
      cases e with
      | pushMsg d =>
          have hc : ¬ d.type = "complete" := by
            intro hc
            simp [SessionEvent.isTerminalPush, hc] at hterm
          have herr : ¬ d.type = "error" := by
            intro herr
            simp [SessionEvent.isTerminalPush, herr] at hterm
          have hstep : handleEvent ⟨true, 0, p, []⟩ (SessionEvent.pushMsg d)
              = ⟨true, 0, some d, []⟩ := by
            simp [handleEvent, hc, herr]
          show ∃ q, runSession (handleEvent ⟨true, 0, p, []⟩ (SessionEvent.pushMsg d)) es
              = ⟨true, 0, q, []⟩
          rw [hstep]
          exact runSession_nonterminal (some d) es
            (fun x hx => hp x (List.mem_cons_of_mem _ hx))
      | pushError => simp [SessionEvent.isTerminalPush] at hterm
      | submitOk f => simp [SessionEvent.isPush] at hpush
      | submitFailed m => simp [SessionEvent.isPush] at hpush

theorem handleEvent_terminal (s : SessionState) (hs : s.connOpen = true)
    (t : SessionEvent) (ht : t.isTerminalPush = true) :
    handleEvent s t = ⟨false, s.closeCount + 1, none, s.notes ++ [terminalNote t]⟩ := by
  cases t with
  | pushMsg d =>
      by_cases hc : d.type = "complete"
      · simp [handleEvent, hs, hc, terminalNote]
      · have herr : d.type = "error" := by
          simp [SessionEvent.isTerminalPush, hc] at ht
          exact ht
        simp [handleEvent, hs, hc, herr, terminalNote]
  | pushError => simp [handleEvent, hs, terminalNote]
  | submitOk f => simp [SessionEvent.isTerminalPush] at ht
  | submitFailed m => simp [SessionEvent.isTerminalPush] at ht

/-- C2: starting from an active session, after any run of non-terminal push
events, a terminal event (complete message, error message, or transport
error) leaves the session with the connection closed, close() invoked
exactly once, the progress state reset to null, and exactly the one toast of
that terminal event fired, a success toast exactly when the event is a
complete message; any further push events after the close change nothing. -/
theorem C2_terminal_event_teardown (pre : List SessionEvent) (t : SessionEvent)
    (post : List SessionEvent)
    (hpre : ∀ e ∈ pre, e.isPush = true ∧ e.isTerminalPush = false)
    (ht : t.isTerminalPush = true)
    (hpost : ∀ e ∈ post, e.isPush = true) :
    runSession activeSession (pre ++ t :: post) = ⟨false, 1, none, [terminalNote t]⟩
    ∧ ((terminalNote t).isSuccess = true ↔ t.isCompleteMsg = true) := by
  constructor
  · obtain ⟨q, hq⟩ := runSession_nonterminal none pre hpre
    have hsplit : pre ++ t :: post = (pre ++ [t]) ++ post := by simp
    rw [hsplit, runSession_append, runSession_append]
    have hq' : runSession activeSession pre = ⟨true, 0, q, []⟩ := hq
    rw [hq']
    have hstep : runSession (⟨true, 0, q, []⟩ : SessionState) [t]
        = ⟨false, 1, none, [terminalNote t]⟩ := by
      show handleEvent ⟨true, 0, q, []⟩ t = _
      rw [handleEvent_terminal ⟨true, 0, q, []⟩ rfl t ht]
      rfl
    rw [hstep]
    exact runSession_closed _ rfl post hpost
  · cases t with
    | pushMsg d =>
        by_cases hc : d.type = "complete"
        · simp [terminalNote, SessionEvent.isCompleteMsg, hc, Note.isSuccess]
        · simp [terminalNote, SessionEvent.isCompleteMsg, hc, Note.isSuccess]
    | pushError => simp [terminalNote, SessionEvent.isCompleteMsg, Note.isSuccess]
    | submitOk f => simp [SessionEvent.isTerminalPush] at ht
    | submitFailed m => simp [SessionEvent.isTerminalPush] at ht

theorem C2_terminal_event_teardown_witness :
    runSession activeSession
        [SessionEvent.pushMsg ⟨"rendering", some (1/2), none, none⟩,
         SessionEvent.pushMsg ⟨"complete", none, none, some "x"⟩]
      = ⟨false, 1, none,
          [Note.success "Video rendered successfully!" "Your lyric video is ready for download"]⟩ := by
  have h := (C2_terminal_event_teardown
    [SessionEvent.pushMsg ⟨"rendering", some (1/2), none, none⟩]
    (SessionEvent.pushMsg ⟨"complete", none, none, some "x"⟩) []
    (by intro e he
        simp only [List.mem_singleton] at he
        subst he
        refine ⟨rfl, ?_⟩
        simp [SessionEvent.isTerminalPush])
    (by simp [SessionEvent.isTerminalPush])
    (by intro e he
        simp at he)).1
  simpa [terminalNote] using h

/-- C3: the code evaluated on a session where the render submission fails
after the progress connection has been opened. The failure toast of
renderVideo in api.ts fires, but the EventSource stays open: connOpen is
still true and close() was never invoked, contradicting the required
teardown; only a later channel event could close it. -/
theorem C3_submission_failure_leaves_connection_open :
    (runSession activeSession [SessionEvent.submitFailed "Network failure"]).notes
        = [Note.failure "Render failed" "Network failure"]
    ∧ (runSession activeSession [SessionEvent.submitFailed "Network failure"]).connOpen = true
    ∧ (runSession activeSession [SessionEvent.submitFailed "Network failure"]).closeCount = 0 :=
  ⟨rfl, rfl, rfl⟩

/-- The validation toast fired by handleRenderVideo when its preconditions
fail (component lines 186 to 192). -/
def validationNote : Note :=
  Note.failure "Cannot render video" "Please ensure audio is loaded and lyrics are added"

/-- The precondition check of handleRenderVideo: the JS test
!storedAudioMetadata || lyricsData.length === 0, where storedAudioMetadata
is localStorage.getItem of currentAudioMetadata. -/
def validationFails (storedAudioMetadata : Option String)
    (lyricsData : List DerivedLyricLine) : Bool :=
  jsFalsyStr storedAudioMetadata || lyricsData.isEmpty

/-- The synchronous part of handleRenderVideo: if validation fails, fire the
validation toast and return; otherwise open the EventSource and issue the
render submission. Result: the new state, whether the progress connection
was opened, and whether the submission network call was issued. (On the
validated path the stored metadata is further JSON-parsed; that parse is
assumed to succeed here and its result only feeds the output file name.) -/
def handleRenderTrigger (storedAudioMetadata : Option String)
    (lyricsData : List DerivedLyricLine) (s : SessionState) :
    SessionState × Bool × Bool :=
  if validationFails storedAudioMetadata lyricsData then
    ({ s with notes := s.notes ++ [validationNote] }, false, false)
  else
    ({ s with connOpen := true }, true, true)

/-- C4: with no stored audio metadata or an empty derived lyric sequence,
the trigger fires exactly the validation toast, opens no progress
connection, issues no render submission, and leaves the connection flag,
close count and progress state untouched; from the idle state it stays
idle. -/
theorem C4_validation_short_circuit (stored : Option String)
    (lyricsData : List DerivedLyricLine) (s : SessionState)
    (h : stored = none ∨ lyricsData = []) :
    (handleRenderTrigger stored lyricsData s).1.connOpen = s.connOpen
    ∧ (handleRenderTrigger stored lyricsData s).1.closeCount = s.closeCount
    ∧ (handleRenderTrigger stored lyricsData s).1.progress = s.progress
    ∧ (handleRenderTrigger stored lyricsData s).1.notes = s.notes ++ [validationNote]
    ∧ (handleRenderTrigger stored lyricsData s).2.1 = false
    ∧ (handleRenderTrigger stored lyricsData s).2.2 = false
    ∧ (s = idleState →
        (handleRenderTrigger stored lyricsData s).1.connOpen = false
        ∧ (handleRenderTrigger stored lyricsData s).1.progress = none) := by
  have hcond : validationFails stored lyricsData = true := by
    rcases h with rfl | rfl
    · rfl
    · simp [validationFails]
  rw [show handleRenderTrigger stored lyricsData s
      = ({ s with notes := s.notes ++ [validationNote] }, false, false) by
    simp [handleRenderTrigger, hcond]]
  refine ⟨rfl, rfl, rfl, rfl, rfl, rfl, ?_⟩
  intro hs
  subst hs
  exact ⟨rfl, rfl⟩

theorem C4_validation_short_circuit_witness :
    ((none : Option String) = none ∨ ([] : List DerivedLyricLine) = [])
    ∧ (handleRenderTrigger none [] idleState).1.connOpen = false
    ∧ (handleRenderTrigger none [] idleState).2.1 = false
    ∧ (handleRenderTrigger none [] idleState).2.2 = false
    ∧ (handleRenderTrigger none [] idleState).1.notes = [validationNote] := by
  have h := C4_validation_short_circuit none [] idleState (Or.inl rfl)
  exact ⟨Or.inl rfl, h.1, h.2.2.2.2.1, h.2.2.2.2.2.1, h.2.2.2.1⟩

/-- The slice of the application store audio record that the render button
consults: its id string. -/
structure AudioRef where
  id : String
deriving DecidableEq, Repr

/-- The disabled condition of the render button (component lines 260 to
263): isRendering || !audio?.id || lyricsData.length === 0, where audio is
the application store audio record. -/
def disabledRender (isRendering : Bool) (audio : Option AudioRef)
    (lyricsData : List DerivedLyricLine) : Bool :=
  isRendering || (match audio with | none => true | some a => a.id.isEmpty)
    || lyricsData.isEmpty

/-- C9 counterexample: a present but empty localStorage entry trips the
validation check even though the entry is not absent and the lyric sequence
is non-empty, so the claimed if-and-only-if condition fails. -/
theorem C9_counterexample :
    validationFails (some "") [⟨"a", 0, 60⟩] = true
    ∧ (some "" : Option String) ≠ none
    ∧ ([⟨"a", 0, 60⟩] : List DerivedLyricLine) ≠ [] :=
  ⟨rfl, by simp, by simp⟩

/-- C9 amended: the validation check fires exactly when the stored metadata
entry is absent or the empty string, or the derived lyric sequence is empty;
the store audio record plays no part in it, so the check can disagree with
the button disabled state in both directions: with the store audio missing
but metadata stored the button is disabled yet validation would pass, and
with store audio present but no stored metadata the button is enabled yet
the click only yields the validation error. -/
theorem C9_amended_validation_gate (stored : Option String)
    (lyricsData : List DerivedLyricLine) :
    (validationFails stored lyricsData = true
        ↔ (stored = none ∨ stored = some "" ∨ lyricsData = []))
    ∧ (validationFails (some "m") [⟨"a", 0, 60⟩] = false
        ∧ disabledRender false none [⟨"a", 0, 60⟩] = true)
    ∧ (validationFails none [⟨"a", 0, 60⟩] = true
        ∧ disabledRender false (some ⟨"id1"⟩) [⟨"a", 0, 60⟩] = false) := by
  refine ⟨?_, ⟨rfl, rfl⟩, ⟨rfl, rfl⟩⟩
  cases stored with
  | none => simp [validationFails, jsFalsyStr, List.isEmpty_iff]
  | some s =>
      simp only [validationFails, jsFalsyStr, Bool.or_eq_true, List.isEmpty_iff,
        String.isEmpty_iff, Option.some.injEq]
      constructor
      · rintro (h | h)
        · exact Or.inr (Or.inl h)
        · exact Or.inr (Or.inr h)
      · rintro (h | h | h)
        · exact absurd h (by simp)
        · exact Or.inl h
        · exact Or.inr h

/-- The result record of the lyrics extraction endpoint. -/
structure ExtractResult where
  lyrics : List String
  source : String
  confidence : ℚ
deriving DecidableEq, Repr

/-- The value extractLyricsFromVideo returns when extraction fails. -/
def emptyExtract : ExtractResult :=
  { lyrics := [], source := "none", confidence := 0 }

/-- The possible outcomes of the underlying fetch of the lyrics extraction
request: the promise rejects (network error), or a response arrives, ok or
not, whose body parses to a result or fails to parse. -/
inductive FetchOutcome where
  | networkError (msg : String)
  | response (ok : Bool) (body : Option ExtractResult)
deriving DecidableEq, Repr

def fetchFailed : FetchOutcome → Bool
  | .networkError _ => true
  | .response ok _ => !ok

/-- The try block of extractLyricsFromVideo in api.ts: a rejected fetch
propagates, a non-ok response throws Failed to extract lyrics, an ok
response yields its parsed body (a body that fails to parse rejects too). -/
def extractAttempt : FetchOutcome → Except String ExtractResult
  | .networkError msg => .error msg
  | .response ok body =>
      if ok then
        match body with
        | some r => .ok r
        | none => .error "invalid JSON"
      else .error "Failed to extract lyrics"

/-- extractLyricsFromVideo of api.ts: the try block wrapped in the catch
that logs a warning and returns the empty result instead of rethrowing. An
error value of the Except would be a rejection of the returned promise. -/
def extractLyricsFromVideo (o : FetchOutcome) : Except String ExtractResult :=
  match extractAttempt o with
  | .ok r => .ok r
  | .error _ => .ok emptyExtract

/-- C10: extractLyricsFromVideo never rejects, and on every failing fetch
outcome (network error or non-ok response) it returns the empty result with
lyrics nil, source none and confidence 0. -/
theorem C10_extract_never_rejects (o : FetchOutcome) :
    (∃ r, extractLyricsFromVideo o = Except.ok r)
    ∧ (fetchFailed o = true → extractLyricsFromVideo o = Except.ok emptyExtract) := by
  cases o with
  | networkError msg => exact ⟨⟨emptyExtract, rfl⟩, fun _ => rfl⟩
  | response ok body =>
      cases ok with
      | false => exact ⟨⟨emptyExtract, rfl⟩, fun _ => rfl⟩
      | true =>
          refine ⟨?_, fun h => by simp [fetchFailed] at h⟩
          cases body with
          | none => exact ⟨emptyExtract, rfl⟩
          | some r => exact ⟨r, rfl⟩

theorem C10_extract_never_rejects_witness :
    fetchFailed (FetchOutcome.networkError "connection refused") = true
    ∧ extractLyricsFromVideo (FetchOutcome.networkError "connection refused")
        = Except.ok emptyExtract :=
  ⟨rfl, (C10_extract_never_rejects (FetchOutcome.networkError "connection refused")).2 rfl⟩

end Chantastik
